import Mathlib

/-!
Verification development for the SmartPay integration service.

The definitions below are shallow embeddings of the Python source:
`smartpay_integration/services/utils.py` (lock store operations),
`smartpay_integration/views.py` (the money-moving view functions),
`smartpay_integration/services/smartpay_service.py` (signature engine,
token manager, gateway client).  Machine-external collaborators (the
Django cache, the token table, the HTTP transport, the wall clock) are
modelled as explicit state or explicit outcome parameters.
-/

/- ### Lock store (Django cache with atomic add / delete)

`cache.add(key, value, ttl)` creates the entry only when the key is
absent and reports whether it created it; `cache.delete(key)` removes
the entry.  TTL expiry is not modelled: all claims concern a single
logical operation, well inside the 30-second TTL. -/

/-- The shared key-value lock store: an association list of entries. -/
abbrev Cache := List (String × String)

/-- Look up a key in the store. -/
def Cache.find (c : Cache) (k : String) : Option String :=
  List.lookup k c

/-- Model of `cache.add`: atomically create the entry iff the key is absent.
Returns `true` iff the entry was newly created, with the new store. -/
def Cache.add (c : Cache) (k v : String) : Bool × Cache :=
  match c.find k with
  | some _ => (false, c)
  | none => (true, c ++ [(k, v)])

/-- Model of `cache.delete`: remove every entry under the key (idempotent). -/
def Cache.del (c : Cache) (k : String) : Cache :=
  c.filter (fun e => e.1 ≠ k)

/- ### `acquire_locks` / `release_locks` (services/utils.py, lines 4-24) -/

/-- The transaction-id lock key: `f"txn_{transaction_id}"`. -/
def txnLockKey (transactionId : String) : String :=
  "txn_" ++ transactionId

/-- The resource lock key:
`f"resource_{resource_id}_{amount}_{transaction_type}"`. -/
def resourceLockKey (resourceId amount transactionType : String) : String :=
  "resource_" ++ resourceId ++ "_" ++ amount ++ "_" ++ transactionType

/-- Embedding of `acquire_locks(transaction_id, resource_id, amount, transaction_type)`:
try the transaction lock first, then the resource lock, releasing the
transaction lock when the second acquisition fails.  Returns the Python
pair `(lock_keys, error_message)` together with the resulting store. -/
def acquireLocks (transactionId resourceId amount transactionType : String)
    (c : Cache) : (Option (List String) × Option String) × Cache :=
  let txnLock := txnLockKey transactionId
  let resourceLock := resourceLockKey resourceId amount transactionType
  match c.add txnLock "locked" with
  | (false, c₁) => ((none, some "Transaction already being processed"), c₁)
  | (true, c₁) =>
    match c₁.add resourceLock "locked" with
    | (false, c₂) =>
      ((none, some ((if transactionType = "sell_power" then "Meter" else "Bill")
          ++ " transaction in progress")), c₂.del txnLock)
    | (true, c₂) => ((some [txnLock, resourceLock], none), c₂)

/-- Embedding of `release_locks(lock_keys)`: delete each key; `None` is a no-op. -/
def releaseLocks (lockKeys : Option (List String)) (c : Cache) : Cache :=
  match lockKeys with
  | none => c
  | some keys => keys.foldl Cache.del c

/- ### Python values crossing the JSON boundary

Request parameter values are Python objects: `None`, ints, strings, or
`Decimal` instances produced by the request serializer (which validates
`max_digits=12, decimal_places=2`, so a validated amount is an exact
number of cents). -/

/-- A Python value as it appears in an outbound request body. -/
inductive PyVal where
  | vNone : PyVal
  | vInt : Int → PyVal
  | vStr : String → PyVal
  | vDec : Nat → PyVal
deriving DecidableEq, Repr

/- ### `"{:.2f}".format(float(amount))` (views.py lines 320, 536, 821)

The serializer allows at most two decimal places and at most 12 digits,
so the validated amount is exactly `cents / 100` with `cents < 10^14`;
in that range the float round-trip is value-preserving and the format
is the integer part, a point, and the two-digit cent part. -/

/-- The decimal digit characters. -/
def digitChar10 : Nat → Char
  | 0 => '0'
  | 1 => '1'
  | 2 => '2'
  | 3 => '3'
  | 4 => '4'
  | 5 => '5'
  | 6 => '6'
  | 7 => '7'
  | 8 => '8'
  | _ => '9'

/-- Decimal digits of `n`, most significant first (fuel-driven). -/
def natDigitsGo : Nat → Nat → List Char
  | 0, _ => []
  | fuel + 1, n =>
    if n = 0 then [] else natDigitsGo fuel (n / 10) ++ [digitChar10 (n % 10)]

/-- Decimal representation of a natural number. -/
def natChars (n : Nat) : List Char :=
  if n = 0 then ['0'] else natDigitsGo n n

/-- Embedding of `"{:.2f}".format(float(cents / 100))`: fixed-point with exactly two
fractional digits. -/
def formatTwoDec (cents : Nat) : String :=
  ⟨natChars (cents / 100) ++
    ['.', digitChar10 (cents % 100 / 10), digitChar10 (cents % 100 % 10)]⟩

/-- Does the string have exactly one point, with exactly two characters
after it, both decimal digits? -/
def checkTwoFrac (s : String) : Bool :=
  match s.data.reverse with
  | b :: a :: p :: rest =>
    a.isDigit && b.isDigit && (p = '.') && rest.all (fun c => c ≠ '.')
  | _ => false

/- ### The amount value each money-moving view transmits to the gateway -/

/-- The view `sell_power` sends `amount_str = "{:.2f}".format(float(amount))`
(views.py lines 320 and 341). -/
def sellPowerAmountSent (amountCents : Nat) : PyVal :=
  .vStr (formatTwoDec amountCents)

/-- The view `pay_bill` sends `amount_str = "{:.2f}".format(float(amount))`
(views.py lines 821 and 851). -/
def payBillAmountSent (amountCents : Nat) : PyVal :=
  .vStr (formatTwoDec amountCents)

/-- The view `pay_arrear` sends `amount = "{:.2f}".format(float(amount))`
(views.py lines 536 and 540). -/
def payArrearAmountSent (amountCents : Nat) : PyVal :=
  .vStr (formatTwoDec amountCents)

/-- The view `transfer_amount` passes `serializer.validated_data['amount']`
— the validated `Decimal` — straight through, with no formatting
(views.py lines 182-186). -/
def transferAmountSent (amountCents : Nat) : PyVal :=
  .vDec amountCents

/-- Is the transmitted value a fixed-point decimal string with exactly
two digits after the point? -/
def isTwoFracValue : PyVal → Bool
  | .vStr s => checkTwoFrac s
  | _ => false

/- ### The money-moving views (views.py lines 299-374, 806-892, 172-193)

Each view is modelled post-routing: `valid` is the serializer verdict,
`gw` the outcome of the gateway-client call (`.error` for any raised
exception, including transport failures), `c` the shared lock store, and
the `t*` arguments are wall-clock readings at the points where the
source samples the clock.  The result records the HTTP status, the
final lock store, and the audit records appended during the call. -/

/-- One `APILog.objects.create(...)` row (audit record). -/
structure AuditRec where
  endpoint : String
  statusCode : Nat
  duration : Int
deriving DecidableEq, Repr

/-- Result of one view invocation. -/
structure ViewOutcome where
  statusCode : Nat
  cache : Cache
  logs : List AuditRec
deriving DecidableEq, Repr

/-- The `sell_power` view.  `tStart` is `transaction_start`, `tLog` the
clock reading when the exit-path audit record is written. -/
def sellPowerView (valid : Bool) (transactionId meterNumber : String)
    (amountCents : Nat) (gw : Except String Nat) (c : Cache)
    (tStart tLog : Int) : ViewOutcome :=
  if valid = false then
    { statusCode := 400, cache := c
      logs := [⟨"sell_power_validation_error", 400, 0⟩] }
  else
    let amountStr := formatTwoDec amountCents
    match acquireLocks transactionId meterNumber amountStr "sell_power" c with
    | ((lockKeys, some _), c₁) =>
      { statusCode := 423, cache := releaseLocks lockKeys c₁
        logs := [⟨"sell_power", 423, tLog - tStart⟩] }
    | ((lockKeys, none), c₁) =>
      match gw with
      | .ok _ =>
        { statusCode := 200, cache := releaseLocks lockKeys c₁
          logs := [⟨"sell_power", 200, tLog - tStart⟩] }
      | .error _ =>
        { statusCode := 500, cache := releaseLocks lockKeys c₁
          logs := [⟨"sell_power", 500, tLog - tStart⟩] }

/-- The `pay_bill` view.  A validation failure returns 400 with no audit
record; the lock-failure record carries the literal duration `0.0`; the
success record carries the service-call duration `tSvc1 - tSvc0`; the
exception record carries `tLog - tStart`. -/
def payBillView (valid : Bool) (transactionId billCode : String)
    (amountCents : Nat) (gw : Except String Nat) (c : Cache)
    (tStart tSvc0 tSvc1 tLog : Int) : ViewOutcome :=
  if valid = false then
    { statusCode := 400, cache := c, logs := [] }
  else
    let amountStr := formatTwoDec amountCents
    match acquireLocks transactionId billCode amountStr "pay_bill" c with
    | ((lockKeys, some _), c₁) =>
      { statusCode := 423, cache := releaseLocks lockKeys c₁
        logs := [⟨"pay_bill", 423, 0⟩] }
    | ((lockKeys, none), c₁) =>
      match gw with
      | .ok _ =>
        { statusCode := 200, cache := releaseLocks lockKeys c₁
          logs := [⟨"pay_bill_success", 200, tSvc1 - tSvc0⟩] }
      | .error _ =>
        { statusCode := 500, cache := releaseLocks lockKeys c₁
          logs := [⟨"pay_bill", 500, tLog - tStart⟩] }

/-- The `transfer_amount` view (views.py lines 172-193): no locks are
taken and no `APILog` row is ever created. -/
def transferAmountView (valid : Bool) (gw : Except String Nat) :
    Nat × List AuditRec :=
  if valid = false then (400, [])
  else
    match gw with
    | .ok _ => (200, [])
    | .error _ => (500, [])

/-- The `pay_arrear` view (views.py lines 528-550): no locks are taken
and no `APILog` row is ever created; validation failure returns 400,
a gateway result 200, a raised exception 500. -/
def payArrearView (valid : Bool) (gw : Except String Nat) :
    Nat × List AuditRec :=
  if valid = false then (400, [])
  else
    match gw with
    | .ok _ => (200, [])
    | .error _ => (500, [])

/- ### Session token storage and `_get_new_token`
(services/smartpay_service.py, lines 105-147)

The remote interaction is an explicit outcome: `.error` for a transport
fault (the POST or `response.json()` raised), `.ok resp` for a decoded
response.  Body fields are `Option`s: `none` models an absent key, for
which the source's `data['start_time']`-style lookups raise `KeyError`.
Timestamp parsing — `make_aware(parse_datetime(...))` on a *present*
string — is the explicit function `parseDT`, whose `none` models the
raise on an unparseable or already timezone-aware string (the source
applies it to `start_time` first, then `end_time`); a token row stores
the parsed values, carried abstractly.  The function returns the
Python outcome together with the token store as it stands when control
leaves the function — also on a raise. -/

/-- One `SmartPayToken` row.  The timestamp fields hold the values of
`make_aware(parse_datetime(...))`, carried abstractly as strings. -/
structure TokenRow where
  token : String
  seed : String
  startTime : String
  endTime : String
  isActive : Bool
deriving DecidableEq, Repr

/-- The token table. -/
abbrev TokenStore := List TokenRow

/-- A decoded token-endpoint response body with its HTTP status. -/
structure TokenResp where
  statusCode : Nat
  state : Option Int
  startTime : Option String
  endTime : Option String
  tokens : Option String
  seed : Option String
deriving DecidableEq, Repr

/-- Number of rows flagged active. -/
def activeCount (s : TokenStore) : Nat :=
  (s.filter (fun t => t.isActive)).length

/-- Model of `SmartPayToken.objects.filter(is_active=True).update(is_active=False)`. -/
def deactivateAll (s : TokenStore) : TokenStore :=
  s.map (fun t => if t.isActive then { t with isActive := false } else t)

/-- Embedding of `_get_new_token`, as it affects token storage: `transport` is the
combined outcome of the POST and `response.json()`, `parseDT` the
outcome of `make_aware(parse_datetime(...))` on a present timestamp
string.  On HTTP 200 with `state == 0` the source first deactivates
every active row and only then reads `data['start_time']`, parses it,
reads `data['end_time']`, parses it, then reads `data['tokens']` and
`data['seed']` and inserts the new active row; a missing key or a
failing parse raises after the deactivation update has already run. -/
def getNewToken (parseDT : String → Option String)
    (transport : Except String TokenResp) (s : TokenStore) :
    Except String TokenRow × TokenStore :=
  match transport with
  | .error e => (.error e, s)
  | .ok resp =>
    if resp.statusCode = 200 ∧ resp.state = some 0 then
      let s₁ := deactivateAll s
      match resp.startTime with
      | none => (.error "KeyError: start_time", s₁)
      | some st =>
        match parseDT st with
        | none => (.error "invalid start_time", s₁)
        | some stv =>
          match resp.endTime with
          | none => (.error "KeyError: end_time", s₁)
          | some et =>
            match parseDT et with
            | none => (.error "invalid end_time", s₁)
            | some etv =>
              match resp.tokens, resp.seed with
              | some tk, some sd =>
                let row : TokenRow := ⟨tk, sd, stv, etv, true⟩
                (.ok row, s₁ ++ [row])
              | none, _ => (.error "KeyError: tokens", s₁)
              | some _, none => (.error "KeyError: seed", s₁)
    else
      (.error "Failed to get new token", s)

/- ### `_make_request` retry discipline
(services/smartpay_service.py, lines 150-187)

Responses of the successive POSTs to the action endpoint are an oracle
`resps : Nat → ActionResp`; invocation number `i` consumes `resps i`.
The result pairs the Python outcome with the number of POSTs issued to
the action endpoint.  Token refreshes hit a different endpoint and are
not counted; a refresh failure would only abort earlier. -/

/-- A decoded action-endpoint response: HTTP status plus the gateway
`state` field. -/
structure ActionResp where
  statusCode : Nat
  state : Int
deriving DecidableEq, Repr

/-- Embedding of `_make_request(...)` with `retry_on_token_expiry=False`: return the
decoded body on HTTP 200 (the `state == -95131` branch is dead because
the flag is clear) and raise on any other status. -/
def makeRequestNoRetry (resps : Nat → ActionResp) (i : Nat) :
    Except String ActionResp × Nat :=
  let r := resps i
  if r.statusCode = 200 then (.ok r, 1)
  else (.error "API request failed", 1)

/-- Embedding of `_make_request(action, params, type_param, retry_on_token_expiry)`
with the flag set: on HTTP 200 with `state == -95131`, refresh the token
and re-issue the same call with the flag cleared; otherwise return the
decoded body on HTTP 200 and raise on any other status. -/
def makeRequest (resps : Nat → ActionResp) (i : Nat) :
    Except String ActionResp × Nat :=
  let r := resps i
  if r.statusCode = 200 then
    if r.state = -95131 then
      let (res, n) := makeRequestNoRetry resps (i + 1)
      (res, n + 1)
    else (.ok r, 1)
  else (.error "API request failed", 1)

/- ### `inquiry_sales_transactions` view (views.py lines 468-489)

The request body carries an optional integer `count`; the serializer
supplies the default 5 for the outbound call, but the truncation step
reads `request.data['count']` — the *raw* body — and a missing key
raises `KeyError`, caught by the generic handler as a 500.  `details`
is the list from the gateway response; entries are opaque. -/

/-- The view result: the Python outcome of the handler body (truncated
details list, or the caught exception as a 500) together with the
`count` value handed to the gateway client. -/
def inquirySalesView (bodyCount : Option Int) (details : List Nat) :
    Except String (List Nat) × Int :=
  let validatedCount := bodyCount.getD 5
  match bodyCount with
  | none => (.error "KeyError: count", validatedCount)
  | some n => (.ok (details.take n.toNat), validatedCount)

/- ### 32-bit arithmetic over `Nat` -/

/-- Addition modulo `2^32`. -/
def add32 (a b : Nat) : Nat := (a + b) % 4294967296

/-- Bitwise complement on 32 bits. -/
def not32 (a : Nat) : Nat := a ^^^ 4294967295

/-- Left rotation of a 32-bit word. -/
def rotl32 (x n : Nat) : Nat := ((x <<< n) ||| (x >>> (32 - n))) % 4294967296

/-- Right rotation of a 32-bit word. -/
def rotr32 (x n : Nat) : Nat := ((x >>> n) ||| (x <<< (32 - n))) % 4294967296

/- ### Bytes, UTF-8, hex -/

/-- UTF-8 encoding of one code point. -/
def charUtf8 (c : Char) : List Nat :=
  let n := c.toNat
  if n < 128 then [n]
  else if n < 2048 then [192 ||| (n >>> 6), 128 ||| (n &&& 63)]
  else if n < 65536 then
    [224 ||| (n >>> 12), 128 ||| ((n >>> 6) &&& 63), 128 ||| (n &&& 63)]
  else
    [240 ||| (n >>> 18), 128 ||| ((n >>> 12) &&& 63),
     128 ||| ((n >>> 6) &&& 63), 128 ||| (n &&& 63)]

/-- Model of `s.encode()`: the UTF-8 bytes of a string. -/
def strBytes (s : String) : List Nat :=
  s.data.foldr (fun c acc => charUtf8 c ++ acc) []

/-- Split a list into consecutive chunks of `size` (fuel-driven). -/
def chunksGo (size : Nat) : Nat → List Nat → List (List Nat)
  | _, [] => []
  | 0, _ :: _ => []
  | fuel + 1, a :: rest =>
    (a :: rest).take size :: chunksGo size fuel ((a :: rest).drop size)

/-- Split a list into consecutive chunks of `size`. -/
def chunks (size : Nat) (l : List Nat) : List (List Nat) :=
  chunksGo size l.length l

/-- Little-endian word from bytes. -/
def leWord (bs : List Nat) : Nat := bs.foldr (fun x acc => x + 256 * acc) 0

/-- Big-endian word from bytes. -/
def beWord (bs : List Nat) : Nat := bs.foldl (fun acc x => acc * 256 + x) 0

/-- Four little-endian bytes of a 32-bit word. -/
def leBytes4 (w : Nat) : List Nat :=
  [w % 256, w / 256 % 256, w / 65536 % 256, w / 16777216 % 256]

/-- Four big-endian bytes of a 32-bit word. -/
def beBytes4 (w : Nat) : List Nat :=
  [w / 16777216 % 256, w / 65536 % 256, w / 256 % 256, w % 256]

/-- Eight little-endian bytes of a 64-bit value. -/
def leBytes8 (w : Nat) : List Nat :=
  leBytes4 (w % 4294967296) ++ leBytes4 (w / 4294967296)

/-- Eight big-endian bytes of a 64-bit value. -/
def beBytes8 (w : Nat) : List Nat :=
  beBytes4 (w / 4294967296) ++ beBytes4 (w % 4294967296)

/-- Lower-case hex digit. -/
def hexLowerChar (n : Nat) : Char :=
  if n < 10 then digitChar10 n
  else match n with
    | 10 => 'a'
    | 11 => 'b'
    | 12 => 'c'
    | 13 => 'd'
    | 14 => 'e'
    | _ => 'f'

/-- Upper-case hex digit. -/
def hexUpperChar (n : Nat) : Char :=
  if n < 10 then digitChar10 n
  else match n with
    | 10 => 'A'
    | 11 => 'B'
    | 12 => 'C'
    | 13 => 'D'
    | 14 => 'E'
    | _ => 'F'

/-- Model of `.hexdigest()`: lower-case hex of a byte list. -/
def bytesToHex (bs : List Nat) : String :=
  ⟨bs.foldr (fun b acc => hexLowerChar (b / 16) :: hexLowerChar (b % 16) :: acc) []⟩

/-- ASCII upper-casing of one character (Python `str.upper` restricted
to ASCII, which is all that hex digests contain). -/
def asciiUpper (c : Char) : Char :=
  if 97 ≤ c.toNat ∧ c.toNat ≤ 122 then Char.ofNat (c.toNat - 32) else c

/-- Model of `.upper()` on an ASCII string. -/
def strUpper (s : String) : String := ⟨s.data.map asciiUpper⟩

/- ### MD5 (RFC 1321) -/

/-- The 64 MD5 sine-table constants. -/
def md5K : List Nat :=
  [3614090360, 3905402710, 606105819, 3250441966,
   4118548399, 1200080426, 2821735955, 4249261313,
   1770035416, 2336552879, 4294925233, 2304563134,
   1804603682, 4254626195, 2792965006, 1236535329,
   4129170786, 3225465664, 643717713, 3921069994,
   3593408605, 38016083, 3634488961, 3889429448,
   568446438, 3275163606, 4107603335, 1163531501,
   2850285829, 4243563512, 1735328473, 2368359562,
   4294588738, 2272392833, 1839030562, 4259657740,
   2763975236, 1272893353, 4139469664, 3200236656,
   681279174, 3936430074, 3572445317, 76029189,
   3654602809, 3873151461, 530742520, 3299628645,
   4096336452, 1126891415, 2878612391, 4237533241,
   1700485571, 2399980690, 4293915773, 2240044497,
   1873313359, 4264355552, 2734768916, 1309151649,
   4149444226, 3174756917, 718787259, 3951481745]

/-- The MD5 per-round left-rotation amounts. -/
def md5S : List Nat :=
  [7, 12, 17, 22, 7, 12, 17, 22, 7, 12, 17, 22, 7, 12, 17, 22,
   5, 9, 14, 20, 5, 9, 14, 20, 5, 9, 14, 20, 5, 9, 14, 20,
   4, 11, 16, 23, 4, 11, 16, 23, 4, 11, 16, 23, 4, 11, 16, 23,
   6, 10, 15, 21, 6, 10, 15, 21, 6, 10, 15, 21, 6, 10, 15, 21]

/-- The MD5 message-word index for round `i`. -/
def md5G (i : Nat) : Nat :=
  if i < 16 then i
  else if i < 32 then (5 * i + 1) % 16
  else if i < 48 then (3 * i + 5) % 16
  else (7 * i) % 16

/-- The MD5 round function for round `i`. -/
def md5F (i b c d : Nat) : Nat :=
  if i < 16 then (b &&& c) ||| (not32 b &&& d)
  else if i < 32 then (d &&& b) ||| (not32 d &&& c)
  else if i < 48 then b ^^^ c ^^^ d
  else c ^^^ (b ||| not32 d)

/-- One MD5 round on state `(a, b, c, d)`. -/
def md5Round (m : List Nat) (st : Nat × Nat × Nat × Nat) (i : Nat) :
    Nat × Nat × Nat × Nat :=
  let (a, b, c, d) := st
  let tmp := add32 (add32 (add32 a (md5F i b c d)) (md5K.getD i 0))
    (m.getD (md5G i) 0)
  (d, add32 b (rotl32 tmp (md5S.getD i 0)), b, c)

/-- Process one 64-byte MD5 block. -/
def md5Block (st : Nat × Nat × Nat × Nat) (block : List Nat) :
    Nat × Nat × Nat × Nat :=
  let m := (chunks 4 block).map leWord
  let (a, b, c, d) := (List.range 64).foldl (md5Round m) st
  (add32 st.1 a, add32 st.2.1 b, add32 st.2.2.1 c, add32 st.2.2.2 d)

/-- Merkle-Damgård padding: `0x80`, zeros to 56 mod 64, then the 8-byte
bit length (little-endian for MD5, big-endian for SHA-256). -/
def mdPad (bigEndianLen : Bool) (msg : List Nat) : List Nat :=
  let z := (64 + 55 - msg.length % 64) % 64
  msg ++ [128] ++ List.replicate z 0 ++
    (if bigEndianLen then beBytes8 (msg.length * 8) else leBytes8 (msg.length * 8))

/-- The MD5 digest (16 bytes) of a byte list. -/
def md5Bytes (msg : List Nat) : List Nat :=
  let (a, b, c, d) := (chunks 64 (mdPad false msg)).foldl md5Block
    (1732584193, 4023233417, 2562383102, 271733878)
  leBytes4 a ++ leBytes4 b ++ leBytes4 c ++ leBytes4 d

/-- Model of `hashlib.md5(s.encode()).hexdigest()`. -/
def md5Hex (s : String) : String := bytesToHex (md5Bytes (strBytes s))

/- ### SHA-256 (FIPS 180-4) -/

/-- The 64 SHA-256 round constants. -/
def sha256K : List Nat :=
  [1116352408, 1899447441, 3049323471, 3921009573,
   961987163, 1508970993, 2453635748, 2870763221,
   3624381080, 310598401, 607225278, 1426881987,
   1925078388, 2162078206, 2614888103, 3248222580,
   3835390401, 4022224774, 264347078, 604807628,
   770255983, 1249150122, 1555081692, 1996064986,
   2554220882, 2821834349, 2952996808, 3210313671,
   3336571891, 3584528711, 113926993, 338241895,
   666307205, 773529912, 1294757372, 1396182291,
   1695183700, 1986661051, 2177026350, 2456956037,
   2730485921, 2820302411, 3259730800, 3345764771,
   3516065817, 3600352804, 4094571909, 275423344,
   430227734, 506948616, 659060556, 883997877,
   958139571, 1322822218, 1537002063, 1747873779,
   1955562222, 2024104815, 2227730452, 2361852424,
   2428436474, 2756734187, 3204031479, 3329325298]

/-- The SHA-256 initial hash state. -/
def sha256Init : List Nat :=
  [1779033703, 3144134277, 1013904242, 2773480762,
   1359893119, 2600822924, 528734635, 1541459225]

/-- Extend 16 message words to the 64-word schedule. -/
def sha256Sched (m16 : List Nat) : List Nat :=
  (List.range 64).foldl (fun w i =>
    if i < 16 then w ++ [m16.getD i 0]
    else
      let w15 := w.getD (i - 15) 0
      let w2 := w.getD (i - 2) 0
      let s0 := rotr32 w15 7 ^^^ rotr32 w15 18 ^^^ (w15 >>> 3)
      let s1 := rotr32 w2 17 ^^^ rotr32 w2 19 ^^^ (w2 >>> 10)
      w ++ [add32 (add32 (w.getD (i - 16) 0) s0) (add32 (w.getD (i - 7) 0) s1)])
    []

/-- The 64 SHA-256 compression rounds on an 8-word state. -/
def sha256Comp (w : List Nat) (st : List Nat) : List Nat :=
  (List.range 64).foldl (fun h i =>
    let a := h.getD 0 0
    let b := h.getD 1 0
    let c := h.getD 2 0
    let d := h.getD 3 0
    let e := h.getD 4 0
    let f := h.getD 5 0
    let g := h.getD 6 0
    let hh := h.getD 7 0
    let s1 := rotr32 e 6 ^^^ rotr32 e 11 ^^^ rotr32 e 25
    let ch := (e &&& f) ^^^ (not32 e &&& g)
    let t1 := add32 (add32 (add32 hh s1) (add32 ch (sha256K.getD i 0))) (w.getD i 0)
    let s0 := rotr32 a 2 ^^^ rotr32 a 13 ^^^ rotr32 a 22
    let mj := (a &&& b) ^^^ (a &&& c) ^^^ (b &&& c)
    let t2 := add32 s0 mj
    [add32 t1 t2, a, b, c, add32 d t1, e, f, g]) st

/-- Process one 64-byte SHA-256 block. -/
def sha256Block (st : List Nat) (block : List Nat) : List Nat :=
  let st₁ := sha256Comp (sha256Sched ((chunks 4 block).map beWord)) st
  (List.range 8).map (fun i => add32 (st.getD i 0) (st₁.getD i 0))

/-- The SHA-256 digest (32 bytes) of a byte list. -/
def sha256Bytes (msg : List Nat) : List Nat :=
  ((chunks 64 (mdPad true msg)).foldl sha256Block sha256Init).foldr
    (fun w acc => beBytes4 w ++ acc) []

/-- Model of `hashlib.sha256(s.encode()).hexdigest()`. -/
def sha256Hex (s : String) : String := bytesToHex (sha256Bytes (strBytes s))

/- ### HMAC (RFC 2104) with SHA-256 -/

/-- Model of `hmac.new(key, msg, hashlib.sha256).digest()`. -/
def hmacSha256Bytes (key msg : List Nat) : List Nat :=
  let k0 := if 64 < key.length then sha256Bytes key else key
  let kPad := k0 ++ List.replicate (64 - k0.length) 0
  sha256Bytes ((kPad.map (fun b => b ^^^ 92)) ++
    sha256Bytes ((kPad.map (fun b => b ^^^ 54)) ++ msg))

/-- Model of `hmac.new(key.encode(), msg.encode(), hashlib.sha256).hexdigest()`. -/
def hmacSha256Hex (key msg : String) : String :=
  bytesToHex (hmacSha256Bytes (strBytes key) (strBytes msg))

/- ### Canonical parameter serialization (urllib `urlencode`) -/

/-- Python `str()` of a parameter value.  (`Decimal` values render at
their canonical two-place scale; the claims never depend on the textual
scale of a `Decimal` parameter.) -/
def pyStr : PyVal → String
  | .vNone => "None"
  | .vInt n =>
    if n < 0 then ⟨'-' :: natChars n.natAbs⟩ else ⟨natChars n.toNat⟩
  | .vStr s => s
  | .vDec cents => formatTwoDec cents

/-- Bytes left verbatim by `quote_plus`: ASCII alphanumerics and
`_`, `.`, `-`, `~`. -/
def isUrlSafe (b : Nat) : Bool :=
  (48 ≤ b && b ≤ 57) || (65 ≤ b && b ≤ 90) || (97 ≤ b && b ≤ 122) ||
    b = 95 || b = 46 || b = 45 || b = 126

/-- Model of `urllib.parse.quote_plus`: spaces to `+`, unsafe bytes
percent-encoded with upper-case hex. -/
def quotePlus (s : String) : String :=
  ⟨(strBytes s).foldr (fun b acc =>
    if b = 32 then '+' :: acc
    else if isUrlSafe b then Char.ofNat b :: acc
    else '%' :: hexUpperChar (b / 16) :: hexUpperChar (b % 16) :: acc) []⟩

/-- One `key=value` pair of `urlencode`. -/
def encodePair (kv : String × PyVal) : String :=
  quotePlus kv.1 ++ "=" ++ quotePlus (pyStr kv.2)

/-- Join with `&`. -/
def joinAmp : List String → String
  | [] => ""
  | [x] => x
  | x :: y :: ys => x ++ "&" ++ joinAmp (y :: ys)

/- ### Sorting parameters by key (Python `sorted`, code-point order) -/

/-- Lexicographic (code-point) comparison of character lists. -/
def lexLe (u v : List Char) : Bool :=
  match u, v with
  | [], _ => true
  | _, [] => false
  | x :: xs, y :: ys => if x < y then true else if y < x then false else lexLe xs ys

/-- Python string `<=` (code-point lexicographic). -/
def strLe (a b : String) : Bool := lexLe a.data b.data

/-- Model of `sorted(clean_params.items(), key=lambda x: x[0])`. -/
def sortParams (ps : List (String × PyVal)) : List (String × PyVal) :=
  ps.mergeSort (fun x y => strLe x.1 y.1)

/-- Model of `urlencode(sorted_params)`. -/
def urlencodeParams (ps : List (String × PyVal)) : String :=
  joinAmp (ps.map encodePair)

/- ### `_calculate_key` (smartpay_service.py, lines 32-52) -/

/-- Embedding of `_calculate_key(seed, token)`: step 1 `hmac.new(password, password,
sha256).hexdigest()`; step 2 `md5(user + pass_hash + token_value)`
with `token_value = token.token if token else ''`; step 3
`md5(value + seed)`. -/
def calculateKey (user password seed : String) (token : Option String) : String :=
  let passHash := hmacSha256Hex password password
  let tokenValue := match token with
    | some t => t
    | none => ""
  let value := md5Hex (user ++ passHash ++ tokenValue)
  md5Hex (value ++ seed)

/- ### `_generate_signature` (smartpay_service.py, lines 54-82) -/

/-- Model of the comprehension dropping values in `[None, ""]`. -/
def keepParam : PyVal → Bool
  | .vNone => false
  | .vStr s => !(s == "")
  | _ => true

/-- Remove empty parameters. -/
def cleanParams (ps : List (String × PyVal)) : List (String × PyVal) :=
  ps.filter (fun kv => keepParam kv.2)

/-- Embedding of `_generate_signature(params, seed, token)` under the configured
`sign_type`: clean, sort, urlencode, append `&key=<derived key>`, then
upper-cased MD5 hex, or HMAC-SHA256 keyed by the derived key, or
`ValueError` for any other configured mode. -/
def generateSignature (signType user password : String)
    (params : List (String × PyVal)) (seed : String) (token : Option String) :
    Except String String :=
  let stringA := urlencodeParams (sortParams (cleanParams params))
  let key := calculateKey user password seed token
  let stringSignTemp := stringA ++ "&key=" ++ key
  if signType = "MD5" then
    .ok (strUpper (md5Hex stringSignTemp))
  else if signType = "HMAC-SHA256" then
    .ok (strUpper (hmacSha256Hex key stringSignTemp))
  else
    .error ("Unsupported sign type: " ++ signType)

/- ### The spec's wording of key derivation and signing

These two definitions follow the specification text (§4.1) rather than
the source, for comparison with `calculateKey` / `generateSignature`:
stage 1 a keyed hash (HMAC-SHA256) of the secret password keyed by
itself, stage 2 a content hash (MD5) of user id, stage-1 digest and
current token value (empty when absent), stage 3 a content hash (MD5)
of the stage-2 digest and the seed; signing drops empty/absent
parameters, sorts by key, URL-encodes `key=value` pairs joined by `&`,
appends `&key=` and the derived key, and hashes per the configured
mode, failing on unsupported modes. -/

/-- Definition of `derive_key(seed, credentials, current_token)` per the spec text. -/
def deriveKeySpec (user password seed : String) (token : Option String) : String :=
  let stage1 := hmacSha256Hex password password
  let stage2 := md5Hex (user ++ stage1 ++ token.getD "")
  md5Hex (stage2 ++ seed)

/-- Definition of `sign(params, seed, credentials, current_token)` per the spec text. -/
def signSpec (mode user password : String) (params : List (String × PyVal))
    (seed : String) (token : Option String) : Except String String :=
  let kept := params.filter (fun kv => !(kv.2 = .vNone || kv.2 = .vStr ""))
  let ordered := kept.mergeSort (fun x y => strLe x.1 y.1)
  let canonical := joinAmp (ordered.map encodePair)
  let signBase := canonical ++ "&key=" ++ deriveKeySpec user password seed token
  if mode = "MD5" then
    .ok (strUpper (md5Hex signBase))
  else if mode = "HMAC-SHA256" then
    .ok (strUpper (hmacSha256Hex (deriveKeySpec user password seed token) signBase))
  else
    .error ("Unsupported sign type: " ++ mode)

/- ## Theorems -/

/- Lock-store helper lemmas. -/

theorem Cache.find_append_single (c : Cache) (k k₀ v₀ : String) :
    Cache.find (c ++ [(k₀, v₀)]) k =
      (Cache.find c k).orElse (fun _ => if k = k₀ then some v₀ else none) := by
  induction c with
  | nil =>
    by_cases h : k = k₀
    · simp [Cache.find, List.lookup, Option.orElse, h]
    · have hb : (k == k₀) = false := by
        simpa using h
      simp [Cache.find, List.lookup, Option.orElse, h, hb]
  | cons hd tl ih =>
    cases hbeq : (k == hd.1) with
    | true =>
      simp [Cache.find, List.lookup, hbeq, Option.orElse]
    | false =>
      simp only [Cache.find, List.cons_append, List.lookup, hbeq] at *
      exact ih

theorem Cache.del_of_find_none (c : Cache) (k : String)
    (h : c.find k = none) : c.del k = c := by
  induction c with
  | nil => rfl
  | cons hd tl ih =>
    cases hbeq : (k == hd.1) with
    | true =>
      simp [Cache.find, List.lookup, hbeq] at h
    | false =>
      simp only [Cache.find, List.lookup, hbeq] at h
      have hne : k ≠ hd.1 := by
        simpa using hbeq
      have htl : Cache.del tl k = tl := ih h
      simp only [Cache.del, List.filter_cons] at *
      have hcond : (decide (hd.1 ≠ k)) = true := by
        simp [Ne.symm hne]
      rw [if_pos hcond, htl]

theorem Cache.del_append_single_self (c : Cache) (k v : String)
    (h : c.find k = none) : Cache.del (c ++ [(k, v)]) k = c := by
  simp only [Cache.del, List.filter_append]
  have h₁ : List.filter (fun e => decide (e.1 ≠ k)) c = c :=
    Cache.del_of_find_none c k h
  rw [h₁]
  simp


theorem txnLockKey_ne_resourceLockKey (tid rid amt ty : String) :
    txnLockKey tid ≠ resourceLockKey rid amt ty := by
  intro h
  have hd := congrArg String.data h
  simp only [txnLockKey, resourceLockKey, String.data_append] at hd
  simp only [List.cons_append, List.cons.injEq] at hd
  exact absurd hd.1 (by decide)

theorem acquireLocks_txn_held (tid rid amt ty : String) (c : Cache) (v : String)
    (h : c.find (txnLockKey tid) = some v) :
    acquireLocks tid rid amt ty c =
      ((none, some "Transaction already being processed"), c) := by
  simp [acquireLocks, Cache.add, h]

theorem acquireLocks_res_held (tid rid amt ty : String) (c : Cache) (v : String)
    (h₁ : c.find (txnLockKey tid) = none)
    (h₂ : c.find (resourceLockKey rid amt ty) = some v) :
    acquireLocks tid rid amt ty c =
      ((none, some ((if ty = "sell_power" then "Meter" else "Bill")
        ++ " transaction in progress")), c) := by
  have hfind : Cache.find (c ++ [(txnLockKey tid, "locked")])
      (resourceLockKey rid amt ty) = some v := by
    rw [Cache.find_append_single, h₂]
    rfl
  have hdel : Cache.del (c ++ [(txnLockKey tid, "locked")]) (txnLockKey tid) = c :=
    Cache.del_append_single_self c _ "locked" h₁
  simp [acquireLocks, Cache.add, h₁, hfind, hdel]

theorem acquireLocks_success (tid rid amt ty : String) (c : Cache)
    (h₁ : c.find (txnLockKey tid) = none)
    (h₂ : c.find (resourceLockKey rid amt ty) = none) :
    acquireLocks tid rid amt ty c =
      ((some [txnLockKey tid, resourceLockKey rid amt ty], none),
        c ++ [(txnLockKey tid, "locked"), (resourceLockKey rid amt ty, "locked")]) := by
  have hfind : Cache.find (c ++ [(txnLockKey tid, "locked")])
      (resourceLockKey rid amt ty) = none := by
    rw [Cache.find_append_single, h₂]
    have : ¬ resourceLockKey rid amt ty = txnLockKey tid :=
      fun he => txnLockKey_ne_resourceLockKey tid rid amt ty he.symm
    simp [Option.orElse, this]
  simp [acquireLocks, Cache.add, h₁, hfind]

theorem releaseLocks_pair (c : Cache) (k₁ k₂ v₁ v₂ : String)
    (h₁ : c.find k₁ = none) (h₂ : c.find k₂ = none) (hne : k₂ ≠ k₁) :
    releaseLocks (some [k₁, k₂]) (c ++ [(k₁, v₁), (k₂, v₂)]) = c := by
  show Cache.del (Cache.del (c ++ [(k₁, v₁), (k₂, v₂)]) k₁) k₂ = c
  have hsplit : c ++ [(k₁, v₁), (k₂, v₂)] = (c ++ [(k₁, v₁)]) ++ [(k₂, v₂)] := by
    simp
  have e₁ : Cache.del (c ++ [(k₁, v₁), (k₂, v₂)]) k₁ = c ++ [(k₂, v₂)] := by
    rw [hsplit]
    have hleft : Cache.del (c ++ [(k₁, v₁)]) k₁ = c :=
      Cache.del_append_single_self c k₁ v₁ h₁
    simp only [Cache.del, List.filter_append] at *
    rw [hleft]
    simp [hne]
  rw [e₁, Cache.del_append_single_self c k₂ v₂ h₂]

/-- C1: `acquire_locks` tries the transaction-id lock first and returns
an error with the store unchanged when it is already held; when the
transaction-id lock is newly created but the resource lock already
exists, the transaction-id lock is released before the error is
returned, so the store is exactly as before the call — no lock created
by the failing call remains. -/
theorem acquire_locks_no_orphan (tid rid amt ty : String) (c : Cache) :
    (∀ v, c.find (txnLockKey tid) = some v →
      acquireLocks tid rid amt ty c =
        ((none, some "Transaction already being processed"), c)) ∧
    (∀ v, c.find (txnLockKey tid) = none →
      c.find (resourceLockKey rid amt ty) = some v →
      acquireLocks tid rid amt ty c =
        ((none, some ((if ty = "sell_power" then "Meter" else "Bill")
          ++ " transaction in progress")), c)) :=
  ⟨fun v h => acquireLocks_txn_held tid rid amt ty c v h,
   fun v h₁ h₂ => acquireLocks_res_held tid rid amt ty c v h₁ h₂⟩

/-- Witness for C1 at concrete stores: a held transaction lock and a
held resource lock each abort with the store unchanged. -/
theorem acquire_locks_no_orphan_witness :
    acquireLocks "T1" "M7" "10.00" "sell_power" [("txn_T1", "locked")] =
      ((none, some "Transaction already being processed"), [("txn_T1", "locked")]) ∧
    acquireLocks "T2" "M7" "10.00" "sell_power"
        [("resource_M7_10.00_sell_power", "locked")] =
      ((none, some "Meter transaction in progress"),
        [("resource_M7_10.00_sell_power", "locked")]) := by
  constructor
  · exact (acquire_locks_no_orphan "T1" "M7" "10.00" "sell_power" _).1 "locked"
      (by decide)
  · have h := (acquire_locks_no_orphan "T2" "M7" "10.00" "sell_power"
      [("resource_M7_10.00_sell_power", "locked")]).2 "locked" (by decide) (by decide)
    simpa using h

theorem sellPowerView_cache_restored (tid meter : String) (cents : Nat)
    (gw : Except String Nat) (c : Cache) (tS tL : Int)
    (h₁ : c.find (txnLockKey tid) = none)
    (h₂ : c.find (resourceLockKey meter (formatTwoDec cents) "sell_power") = none) :
    (sellPowerView true tid meter cents gw c tS tL).cache = c := by
  have hrel : releaseLocks
      (some [txnLockKey tid, resourceLockKey meter (formatTwoDec cents) "sell_power"])
      (c ++ [(txnLockKey tid, "locked"),
        (resourceLockKey meter (formatTwoDec cents) "sell_power", "locked")]) = c :=
    releaseLocks_pair c _ _ "locked" "locked" h₁ h₂
      (fun he => txnLockKey_ne_resourceLockKey tid meter (formatTwoDec cents)
        "sell_power" he.symm)
  cases gw with
  | ok r =>
    simp [sellPowerView, acquireLocks_success tid meter (formatTwoDec cents)
      "sell_power" c h₁ h₂, hrel]
  | error e =>
    simp [sellPowerView, acquireLocks_success tid meter (formatTwoDec cents)
      "sell_power" c h₁ h₂, hrel]

theorem payBillView_cache_restored (tid bill : String) (cents : Nat)
    (gw : Except String Nat) (c : Cache) (tS tSv0 tSv1 tL : Int)
    (h₁ : c.find (txnLockKey tid) = none)
    (h₂ : c.find (resourceLockKey bill (formatTwoDec cents) "pay_bill") = none) :
    (payBillView true tid bill cents gw c tS tSv0 tSv1 tL).cache = c := by
  have hrel : releaseLocks
      (some [txnLockKey tid, resourceLockKey bill (formatTwoDec cents) "pay_bill"])
      (c ++ [(txnLockKey tid, "locked"),
        (resourceLockKey bill (formatTwoDec cents) "pay_bill", "locked")]) = c :=
    releaseLocks_pair c _ _ "locked" "locked" h₁ h₂
      (fun he => txnLockKey_ne_resourceLockKey tid bill (formatTwoDec cents)
        "pay_bill" he.symm)
  cases gw with
  | ok r =>
    simp [payBillView, acquireLocks_success tid bill (formatTwoDec cents)
      "pay_bill" c h₁ h₂, hrel]
  | error e =>
    simp [payBillView, acquireLocks_success tid bill (formatTwoDec cents)
      "pay_bill" c h₁ h₂, hrel]

/-- C2: in every `sell_power` and `pay_bill` invocation in which both
locks were acquired, both locks are released on every exit path —
gateway success or any raised exception — before control returns: the
lock store afterwards is exactly the store from before the call. -/
theorem locks_released_on_every_exit (tid res : String) (cents : Nat)
    (gw : Except String Nat) (c : Cache) (tS tSv0 tSv1 tL : Int)
    (h₁ : c.find (txnLockKey tid) = none)
    (h₂s : c.find (resourceLockKey res (formatTwoDec cents) "sell_power") = none)
    (h₂b : c.find (resourceLockKey res (formatTwoDec cents) "pay_bill") = none) :
    (sellPowerView true tid res cents gw c tS tL).cache = c ∧
    (payBillView true tid res cents gw c tS tSv0 tSv1 tL).cache = c :=
  ⟨sellPowerView_cache_restored tid res cents gw c tS tL h₁ h₂s,
   payBillView_cache_restored tid res cents gw c tS tSv0 tSv1 tL h₁ h₂b⟩

/-- Witness for C2: a concrete empty store, one success run and one
faulting run, each for both operations; the store comes back empty. -/
theorem locks_released_on_every_exit_witness :
    (sellPowerView true "T1" "M7" 1500000 (.ok 0) [] 3 7).cache = [] ∧
    (payBillView true "T1" "B9" 1500000 (.error "boom") [] 3 4 5 7).cache = [] := by
  constructor
  · exact (locks_released_on_every_exit "T1" "M7" 1500000 (.ok 0) [] 3 0 0 7
      (by decide) (by decide) (by decide)).1
  · exact (locks_released_on_every_exit "T1" "B9" 1500000 (.error "boom") [] 3 4 5 7
      (by decide) (by decide) (by decide)).2

theorem sellPowerView_logs (valid : Bool) (tid meter : String) (cents : Nat)
    (gw : Except String Nat) (c : Cache) (tS tL : Int) (hT : tS ≤ tL) :
    (sellPowerView valid tid meter cents gw c tS tL).logs.length = 1 ∧
    ∀ r ∈ (sellPowerView valid tid meter cents gw c tS tL).logs, 0 ≤ r.duration := by
  have hdur : (0 : Int) ≤ tL - tS := by omega
  cases valid with
  | false =>
    simp [sellPowerView]
  | true =>
    rcases hacq : acquireLocks tid meter (formatTwoDec cents) "sell_power" c
      with ⟨⟨lk, err⟩, c₁⟩
    cases err with
    | some e =>
      simp [sellPowerView, hacq, hdur]
    | none =>
      cases gw with
      | ok r => simp [sellPowerView, hacq, hdur]
      | error e => simp [sellPowerView, hacq, hdur]

theorem payBillView_logs (tid bill : String) (cents : Nat)
    (gw : Except String Nat) (c : Cache) (tS tSv0 tSv1 tL : Int)
    (hT : tS ≤ tL) (hSvc : tSv0 ≤ tSv1) :
    (payBillView true tid bill cents gw c tS tSv0 tSv1 tL).logs.length = 1 ∧
    ∀ r ∈ (payBillView true tid bill cents gw c tS tSv0 tSv1 tL).logs,
      0 ≤ r.duration := by
  have hdur : (0 : Int) ≤ tL - tS := by omega
  have hdur₂ : (0 : Int) ≤ tSv1 - tSv0 := by omega
  rcases hacq : acquireLocks tid bill (formatTwoDec cents) "pay_bill" c
    with ⟨⟨lk, err⟩, c₁⟩
  cases err with
  | some e =>
    simp [payBillView, hacq]
  | none =>
    cases gw with
    | ok r => simp [payBillView, hacq, hdur₂]
    | error e => simp [payBillView, hacq, hdur]

/-- C6 (counterexample): `transfer_amount` is a money-moving call, yet
it appends no audit record on any path — success, validation failure,
or exception — refuting "every attempted money-moving call appends
exactly one audit record". -/
theorem transfer_amount_appends_no_audit_record :
    (transferAmountView true (.ok 0)).2 = [] ∧
    (transferAmountView true (.error "boom")).2 = [] ∧
    (transferAmountView false (.ok 0)).2 = [] := by
  exact ⟨rfl, rfl, rfl⟩

/-- C6 (amended): every attempted `sell_power` call — success, lock
failure, validation failure, or exception — and every attempted
`pay_bill` call that passes validation — success, lock failure, or
exception — appends exactly one audit record whose duration is
non-negative (assuming the wall clock is monotone); `pay_bill`'s
validation-failure path appends none, and `transfer_amount` and
`pay_arrear` append none on any path. -/
theorem audit_record_per_attempt (valid : Bool) (tid res : String)
    (cents : Nat) (gw : Except String Nat) (c : Cache)
    (tS tSv0 tSv1 tL : Int) (hT : tS ≤ tL) (hSvc : tSv0 ≤ tSv1) :
    ((sellPowerView valid tid res cents gw c tS tL).logs.length = 1 ∧
      ∀ r ∈ (sellPowerView valid tid res cents gw c tS tL).logs,
        0 ≤ r.duration) ∧
    ((payBillView true tid res cents gw c tS tSv0 tSv1 tL).logs.length = 1 ∧
      ∀ r ∈ (payBillView true tid res cents gw c tS tSv0 tSv1 tL).logs,
        0 ≤ r.duration) ∧
    (payBillView false tid res cents gw c tS tSv0 tSv1 tL).logs = [] ∧
    (payArrearView valid gw).2 = [] ∧
    (transferAmountView valid gw).2 = [] :=
  ⟨sellPowerView_logs valid tid res cents gw c tS tL hT,
   payBillView_logs tid res cents gw c tS tSv0 tSv1 tL hT hSvc,
   rfl,
   by cases valid <;> cases gw <;> rfl,
   by cases valid <;> cases gw <;> rfl⟩

/-- Witness for C6 (amended) at a concrete run. -/
theorem audit_record_per_attempt_witness :
    (sellPowerView true "T1" "M7" 1500000 (.ok 0) [] 3 7).logs.length = 1 ∧
    (payBillView true "T1" "M7" 1500000 (.error "boom") [] 3 4 6 7).logs.length = 1 ∧
    (payBillView false "T1" "M7" 1500000 (.ok 0) [] 3 4 6 7).logs = [] ∧
    (payArrearView true (.ok 0)).2 = [] := by
  refine ⟨?_, ?_, ?_, ?_⟩
  · exact (audit_record_per_attempt true "T1" "M7" 1500000 (.ok 0) [] 3 4 6 7
      (by decide) (by decide)).1.1
  · exact (audit_record_per_attempt true "T1" "M7" 1500000 (.error "boom") [] 3 4 6 7
      (by decide) (by decide)).2.1.1
  · exact (audit_record_per_attempt true "T1" "M7" 1500000 (.ok 0) [] 3 4 6 7
      (by decide) (by decide)).2.2.1
  · exact (audit_record_per_attempt true "T1" "M7" 1500000 (.ok 0) [] 3 4 6 7
      (by decide) (by decide)).2.2.2.1

theorem digitChar10_isDigit (d : Nat) : (digitChar10 d).isDigit = true := by
  rcases d with _|_|_|_|_|_|_|_|_|d <;> rfl

theorem natDigitsGo_isDigit (fuel : Nat) :
    ∀ n c, c ∈ natDigitsGo fuel n → c.isDigit = true := by
  induction fuel with
  | zero =>
    intro n c h
    simp [natDigitsGo] at h
  | succ f ih =>
    intro n c h
    by_cases hn : n = 0
    · simp [natDigitsGo, hn] at h
    · simp only [natDigitsGo, hn, if_false, List.mem_append,
        List.mem_singleton] at h
      rcases h with h | h
      · exact ih _ c h
      · rw [h]
        exact digitChar10_isDigit _
  
theorem natChars_isDigit (n : Nat) (c : Char) (h : c ∈ natChars n) :
    c.isDigit = true := by
  unfold natChars at h
  by_cases hn : n = 0
  · simp [hn] at h
    rw [h]
    decide
  · simp only [hn, if_false] at h
    exact natDigitsGo_isDigit n n c h

theorem isDigit_ne_dot (c : Char) (h : c.isDigit = true) : c ≠ '.' := by
  intro he
  rw [he] at h
  exact absurd h (by decide)

theorem checkTwoFrac_formatTwoDec (cents : Nat) :
    checkTwoFrac (formatTwoDec cents) = true := by
  unfold checkTwoFrac formatTwoDec
  simp only [List.reverse_append, List.reverse_cons, List.reverse_nil,
    List.nil_append, List.cons_append]
  simp only [digitChar10_isDigit, Bool.true_and, decide_True, Bool.and_true]
  rw [List.all_eq_true]
  intro c hc
  have hc' : c ∈ natChars (cents / 100) := List.mem_reverse.mp hc
  simpa using isDigit_ne_dot c (natChars_isDigit _ c hc')

/-- C5 (counterexample): for `transfer_amount` with amount 2000.50 the
value transmitted to the gateway is the raw validated `Decimal`, not a
fixed-point two-fraction-digit string — in particular not `"2000.50"`. -/
theorem transfer_amount_not_formatted :
    isTwoFracValue (transferAmountSent 200050) = false ∧
    transferAmountSent 200050 ≠ .vStr "2000.50" := by
  exact ⟨rfl, by decide⟩

/-- C5 (amended): `sell_power`, `pay_bill` and `pay_arrear` transmit the
amount as a fixed-point decimal string with exactly two digits after
the point, for every serializer-validated amount (e.g. 13567 is sent as
"13567.00" and 2000.5 as "2000.50"); `transfer_amount` transmits the
validated decimal unformatted. -/
theorem amount_fixed_two_decimals (cents : Nat) :
    sellPowerAmountSent cents = .vStr (formatTwoDec cents) ∧
    payBillAmountSent cents = .vStr (formatTwoDec cents) ∧
    payArrearAmountSent cents = .vStr (formatTwoDec cents) ∧
    isTwoFracValue (sellPowerAmountSent cents) = true ∧
    isTwoFracValue (payBillAmountSent cents) = true ∧
    isTwoFracValue (payArrearAmountSent cents) = true ∧
    formatTwoDec 1356700 = "13567.00" ∧
    formatTwoDec 200050 = "2000.50" := by
  refine ⟨rfl, rfl, rfl, ?_, ?_, ?_, by decide, by decide⟩ <;>
    exact checkTwoFrac_formatTwoDec cents

theorem activeCount_deactivateAll (s : TokenStore) :
    activeCount (deactivateAll s) = 0 := by
  induction s with
  | nil => rfl
  | cons t ts ih =>
    cases h : t.isActive <;>
      simp [activeCount, deactivateAll, List.filter_cons, h] at ih ⊢ <;>
      exact ih

theorem activeCount_append (s₁ s₂ : TokenStore) :
    activeCount (s₁ ++ s₂) = activeCount s₁ + activeCount s₂ := by
  simp [activeCount, List.filter_append]

/-- C3 (counterexample): a transport-successful response with HTTP 200
and `state == 0` whose body has no `start_time` key — or whose present
`start_time` string fails `make_aware(parse_datetime(...))` — makes
`_get_new_token` raise *after* deactivating every active token: the
call fails yet mutates token storage (the stored row flips from active
to inactive), refuting "on any failure ... performs no partial
mutation". -/
theorem token_refresh_partial_mutation :
    getNewToken Option.some (.ok ⟨200, some 0, none, none, none, none⟩)
        [⟨"tokOld", "seedOld", "2025-01-01", "2026-01-01", true⟩] =
      (.error "KeyError: start_time",
        [⟨"tokOld", "seedOld", "2025-01-01", "2026-01-01", false⟩]) ∧
    getNewToken (fun _ => none)
        (.ok ⟨200, some 0, some "not a datetime", some "e0", some "tk", some "sd"⟩)
        [⟨"tokOld", "seedOld", "2025-01-01", "2026-01-01", true⟩] =
      (.error "invalid start_time",
        [⟨"tokOld", "seedOld", "2025-01-01", "2026-01-01", false⟩]) ∧
    ([⟨"tokOld", "seedOld", "2025-01-01", "2026-01-01", false⟩] : TokenStore) ≠
      [⟨"tokOld", "seedOld", "2025-01-01", "2026-01-01", true⟩] := by
  refine ⟨rfl, rfl, by decide⟩

/-- C3 (amended): on success (HTTP 200, `state == 0`, complete body
whose timestamps parse) `_get_new_token` deactivates all previously
active tokens and stores the new token as active, leaving exactly one
active token; on a non-success remote state or a transport error it
raises with token storage unchanged; but on a success-state response
whose body lacks a required field, or whose `start_time` is present but
fails to parse, it raises after the deactivation update, leaving
storage with all tokens deactivated and no new token. -/
theorem token_refresh_storage (parseDT : String → Option String)
    (transport : Except String TokenResp) (s : TokenStore) :
    (∀ resp st stv et etv tk sd, transport = .ok resp →
      resp.statusCode = 200 → resp.state = some 0 →
      resp.startTime = some st → parseDT st = some stv →
      resp.endTime = some et → parseDT et = some etv →
      resp.tokens = some tk → resp.seed = some sd →
      getNewToken parseDT transport s =
        (.ok ⟨tk, sd, stv, etv, true⟩,
          deactivateAll s ++ [⟨tk, sd, stv, etv, true⟩]) ∧
      activeCount (getNewToken parseDT transport s).2 = 1) ∧
    (∀ e, transport = .error e →
      getNewToken parseDT transport s = (.error e, s)) ∧
    (∀ resp, transport = .ok resp →
      ¬(resp.statusCode = 200 ∧ resp.state = some 0) →
      getNewToken parseDT transport s = (.error "Failed to get new token", s)) ∧
    (∀ resp, transport = .ok resp → resp.statusCode = 200 →
      resp.state = some 0 → resp.startTime = none →
      getNewToken parseDT transport s =
        (.error "KeyError: start_time", deactivateAll s)) ∧
    (∀ resp st, transport = .ok resp → resp.statusCode = 200 →
      resp.state = some 0 → resp.startTime = some st → parseDT st = none →
      getNewToken parseDT transport s =
        (.error "invalid start_time", deactivateAll s)) := by
  refine ⟨?_, ?_, ?_, ?_, ?_⟩
  · intro resp st stv et etv tk sd htr hcode hstate hst hpst het hpet htk hsd
    subst htr
    have heq : getNewToken parseDT (.ok resp) s =
        (.ok ⟨tk, sd, stv, etv, true⟩,
          deactivateAll s ++ [⟨tk, sd, stv, etv, true⟩]) := by
      simp [getNewToken, hcode, hstate, hst, hpst, het, hpet, htk, hsd]
    refine ⟨heq, ?_⟩
    rw [heq]
    show activeCount (deactivateAll s ++ [⟨tk, sd, stv, etv, true⟩]) = 1
    rw [activeCount_append, activeCount_deactivateAll]
    rfl
  · intro e htr
    subst htr
    rfl
  · intro resp htr hbad
    subst htr
    simp [getNewToken, hbad]
  · intro resp htr hcode hstate hst
    subst htr
    simp [getNewToken, hcode, hstate, hst]
  · intro resp st htr hcode hstate hst hpst
    subst htr
    simp [getNewToken, hcode, hstate, hst, hpst]

/-- Witness for C3 (amended) at a concrete parser, response and store:
a complete success body with parseable timestamps yields exactly one
active token; a `state == -1` response leaves the single-row store
untouched; an unparseable `start_time` fails with all rows
deactivated. -/
theorem token_refresh_storage_witness :
    getNewToken (fun t => if t = "bad" then none else some t)
        (.ok ⟨200, some 0, some "s0", some "e0", some "tokNew", some "sd0"⟩)
        [⟨"tokOld", "seedOld", "2025-01-01", "2026-01-01", true⟩] =
      (.ok ⟨"tokNew", "sd0", "s0", "e0", true⟩,
        [⟨"tokOld", "seedOld", "2025-01-01", "2026-01-01", false⟩,
         ⟨"tokNew", "sd0", "s0", "e0", true⟩]) ∧
    activeCount
      (getNewToken (fun t => if t = "bad" then none else some t)
        (.ok ⟨200, some 0, some "s0", some "e0", some "tokNew", some "sd0"⟩)
        [⟨"tokOld", "seedOld", "2025-01-01", "2026-01-01", true⟩]).2 = 1 ∧
    getNewToken (fun t => if t = "bad" then none else some t)
        (.ok ⟨200, some (-1), some "s0", some "e0", some "tokNew", some "sd0"⟩)
        [⟨"tokOld", "seedOld", "2025-01-01", "2026-01-01", true⟩] =
      (.error "Failed to get new token",
        [⟨"tokOld", "seedOld", "2025-01-01", "2026-01-01", true⟩]) ∧
    getNewToken (fun t => if t = "bad" then none else some t)
        (.ok ⟨200, some 0, some "bad", some "e0", some "tokNew", some "sd0"⟩)
        [⟨"tokOld", "seedOld", "2025-01-01", "2026-01-01", true⟩] =
      (.error "invalid start_time",
        [⟨"tokOld", "seedOld", "2025-01-01", "2026-01-01", false⟩]) := by
  have h₁ := (token_refresh_storage (fun t => if t = "bad" then none else some t)
    (.ok ⟨200, some 0, some "s0", some "e0", some "tokNew", some "sd0"⟩)
    [⟨"tokOld", "seedOld", "2025-01-01", "2026-01-01", true⟩]).1
    _ "s0" "s0" "e0" "e0" "tokNew" "sd0" rfl rfl rfl rfl (by decide) rfl
    (by decide) rfl rfl
  have h₂ := (token_refresh_storage (fun t => if t = "bad" then none else some t)
    (.ok ⟨200, some (-1), some "s0", some "e0", some "tokNew", some "sd0"⟩)
    [⟨"tokOld", "seedOld", "2025-01-01", "2026-01-01", true⟩]).2.2.1
    _ rfl (by decide)
  have h₃ := (token_refresh_storage (fun t => if t = "bad" then none else some t)
    (.ok ⟨200, some 0, some "bad", some "e0", some "tokNew", some "sd0"⟩)
    [⟨"tokOld", "seedOld", "2025-01-01", "2026-01-01", true⟩]).2.2.2.2
    _ "bad" rfl rfl rfl rfl (by decide)
  exact ⟨by simpa [deactivateAll] using h₁.1, h₁.2, h₂,
    by simpa [deactivateAll] using h₃⟩

/-- C4: with the retry flag set, `_make_request` issues at most two
POSTs of the action request; when the first response is HTTP 200 with
the token-expired sentinel `-95131` and the second has HTTP 200, the
call refreshes and retries exactly once, returning the second response
verbatim — even when that response also carries the sentinel, no third
call is made. -/
theorem retry_exactly_once (resps : Nat → ActionResp) (i : Nat) :
    (makeRequest resps i).2 ≤ 2 ∧
    ((resps i).statusCode = 200 → (resps i).state = -95131 →
      (resps (i + 1)).statusCode = 200 →
      makeRequest resps i = (.ok (resps (i + 1)), 2)) := by
  constructor
  · unfold makeRequest makeRequestNoRetry
    by_cases h1 : (resps i).statusCode = 200
    · by_cases h2 : (resps i).state = -95131
      · by_cases h3 : (resps (i + 1)).statusCode = 200 <;> simp [h1, h2, h3]
      · simp [h1, h2]
    · simp [h1]
  · intro h₁ h₂ h₃
    unfold makeRequest makeRequestNoRetry
    simp [h₁, h₂, h₃]

/-- Witness for C4: an oracle that always answers HTTP 200 with the
token-expired sentinel; the call returns the second answer after
exactly two POSTs. -/
theorem retry_exactly_once_witness :
    makeRequest (fun _ => ⟨200, -95131⟩) 0 = (.ok ⟨200, -95131⟩, 2) := by
  exact (retry_exactly_once (fun _ => ⟨200, -95131⟩) 0).2 rfl rfl rfl

/-- C10: a request to `inquiry_sales_transactions` whose body has no
`count` key fails with an error (the truncation step reads the raw
body and hits a missing key), even though the serializer default 5 was
used for the outbound gateway call. -/
theorem inquiry_missing_count_fails (details : List Nat) :
    inquirySalesView none details = (.error "KeyError: count", 5) := rfl

/- Validation of the hash primitives on published test vectors
(RFC 1321, FIPS 180-4, RFC 4231). -/

set_option maxRecDepth 10000 in
theorem md5Hex_vector : md5Hex "abc" = "900150983cd24fb0d6963f7d28e17f72" := by
  decide

set_option maxRecDepth 10000 in
theorem md5Hex_empty_vector : md5Hex "" = "d41d8cd98f00b204e9800998ecf8427e" := by
  decide

set_option maxRecDepth 10000 in
theorem sha256Hex_vector :
    sha256Hex "abc" =
      "ba7816bf8f01cfea414140de5dae2223b00361a396177a9cb410ff61f20015ad" := by
  decide

set_option maxRecDepth 10000 in
theorem hmacSha256Hex_vector :
    hmacSha256Hex "Jefe" "what do ya want for nothing?" =
      "5bdcc146bf60754e6a042426089575c75a003f089d2739839dec58b964ec3843" := by
  decide

theorem calcKey_eq_spec (user password seed : String) (token : Option String) :
    calculateKey user password seed token = deriveKeySpec user password seed token := by
  cases token <;> rfl

/-- C7: `_calculate_key` follows the three-stage protocol — stage 1 an
HMAC-SHA256 of the secret password keyed by itself, stage 2 an MD5 of
the user id, the stage-1 digest and the current token value (empty when
no token is supplied), stage 3 (the returned key) an MD5 of the stage-2
digest concatenated with the seed — and hence agrees with the spec's
`derive_key`. -/
theorem derive_key_three_stages (user password seed : String)
    (token : Option String) :
    calculateKey user password seed token =
      md5Hex (md5Hex (user ++ hmacSha256Hex password password ++ token.getD "")
        ++ seed) ∧
    calculateKey user password seed token = deriveKeySpec user password seed token := by
  cases token <;> exact ⟨rfl, rfl⟩

theorem keepParam_eq (v : PyVal) :
    keepParam v = !(v = PyVal.vNone || v = PyVal.vStr "") := by
  cases v with
  | vNone => rfl
  | vInt n => rfl
  | vDec c => rfl
  | vStr s =>
    by_cases h : s = "" <;> simp [keepParam, h]

theorem cleanParams_eq_specFilter (ps : List (String × PyVal)) :
    cleanParams ps =
      ps.filter (fun kv => !(kv.2 = PyVal.vNone || kv.2 = PyVal.vStr "")) := by
  unfold cleanParams
  apply List.filter_congr
  intro kv _
  exact keepParam_eq kv.2

/-- C8: `_generate_signature` agrees with the spec's `sign` — drop
empty/absent parameters, sort by key, URL-encode as `key=value` pairs
joined by `&`, append `&key=` and the derived key, then MD5 (upper
hex) or HMAC-SHA256 keyed by the derived key according to the
configured mode — and for any other configured mode it fails with a
configuration error, never falling back silently. -/
theorem signature_matches_spec (mode user password : String)
    (params : List (String × PyVal)) (seed : String) (token : Option String) :
    generateSignature mode user password params seed token =
      signSpec mode user password params seed token ∧
    (mode ≠ "MD5" → mode ≠ "HMAC-SHA256" →
      generateSignature mode user password params seed token =
        .error ("Unsupported sign type: " ++ mode)) := by
  constructor
  · unfold generateSignature signSpec urlencodeParams sortParams
    rw [cleanParams_eq_specFilter, calcKey_eq_spec]
  · intro h1 h2
    unfold generateSignature
    rw [if_neg h1, if_neg h2]

/-- Witness for C8 at a concrete unsupported mode. -/
theorem signature_matches_spec_witness :
    generateSignature "SHA1" "u" "p" [("a", .vStr "1")] "s" none =
      signSpec "SHA1" "u" "p" [("a", .vStr "1")] "s" none ∧
    generateSignature "SHA1" "u" "p" [("a", .vStr "1")] "s" none =
      .error "Unsupported sign type: SHA1" := by
  have h := signature_matches_spec "SHA1" "u" "p" [("a", .vStr "1")] "s" none
  have he : ("Unsupported sign type: " ++ "SHA1" : String) =
      "Unsupported sign type: SHA1" := rfl
  exact ⟨h.1, by rw [h.2 (by decide) (by decide), he]⟩

theorem lexLe_total : ∀ a b : List Char, (lexLe a b || lexLe b a) = true := by
  intro a
  induction a with
  | nil =>
    intro b
    simp [lexLe]
  | cons x xs ih =>
    intro b
    cases b with
    | nil => simp [lexLe]
    | cons y ys =>
      simp only [lexLe]
      rcases lt_trichotomy x y with h | h | h
      · simp [h]
      · subst h
        simpa [lt_irrefl] using ih ys
      · simp [h, asymm h]

theorem lexLe_trans :
    ∀ a b c : List Char, lexLe a b = true → lexLe b c = true → lexLe a c = true := by
  intro a
  induction a with
  | nil =>
    intro b c h₁ h₂
    simp [lexLe]
  | cons x xs ih =>
    intro b c h₁ h₂
    cases b with
    | nil => simp [lexLe] at h₁
    | cons y ys =>
      cases c with
      | nil => simp [lexLe] at h₂
      | cons z zs =>
        simp only [lexLe] at h₁ h₂ ⊢
        rcases lt_trichotomy x y with hxy | hxy | hxy
        · rcases lt_trichotomy y z with hyz | hyz | hyz
          · simp [lt_trans hxy hyz]
          · subst hyz
            simp [hxy]
          · simp [asymm hyz, hyz] at h₂
        · subst hxy
          rcases lt_trichotomy x z with hxz | hxz | hxz
          · simp [hxz]
          · subst hxz
            simp only [lt_irrefl, if_false] at h₁ h₂ ⊢
            exact ih ys zs h₁ h₂
          · simp [asymm hxz, hxz] at h₂
        · simp [asymm hxy, hxy] at h₁

theorem lexLe_antisymm :
    ∀ a b : List Char, lexLe a b = true → lexLe b a = true → a = b := by
  intro a
  induction a with
  | nil =>
    intro b h₁ h₂
    cases b with
    | nil => rfl
    | cons y ys => simp [lexLe] at h₂
  | cons x xs ih =>
    intro b h₁ h₂
    cases b with
    | nil => simp [lexLe] at h₁
    | cons y ys =>
      simp only [lexLe] at h₁ h₂
      rcases lt_trichotomy x y with h | h | h
      · simp [h, asymm h] at h₂
      · subst h
        simp only [lt_irrefl, if_false] at h₁ h₂
        rw [ih ys h₁ h₂]
      · simp [h, asymm h] at h₁

theorem strLe_antisymm (a b : String) (h₁ : strLe a b = true)
    (h₂ : strLe b a = true) : a = b := by
  obtain ⟨da⟩ := a
  obtain ⟨db⟩ := b
  unfold strLe at h₁ h₂
  exact congrArg String.mk (lexLe_antisymm da db h₁ h₂)

theorem sortParams_perm_eq (p₁ p₂ : List (String × PyVal))
    (hperm : p₁.Perm p₂) (hnd : (p₁.map Prod.fst).Nodup) :
    sortParams p₁ = sortParams p₂ := by
  have htr : ∀ a b c : String × PyVal, strLe a.1 b.1 = true →
      strLe b.1 c.1 = true → strLe a.1 c.1 = true := by
    intro a b c hab hbc
    unfold strLe at *
    exact lexLe_trans _ _ _ hab hbc
  have hto : ∀ a b : String × PyVal, (strLe a.1 b.1 || strLe b.1 a.1) = true := by
    intro a b
    unfold strLe
    exact lexLe_total _ _
  have hs₁ := List.sorted_mergeSort htr hto p₁
  have hs₂ := List.sorted_mergeSort htr hto p₂
  have hperm₁ : (sortParams p₁).Perm p₁ := List.mergeSort_perm p₁ _
  have hperm₂ : (sortParams p₂).Perm p₂ := List.mergeSort_perm p₂ _
  have hptot : (sortParams p₁).Perm (sortParams p₂) :=
    hperm₁.trans (hperm.trans hperm₂.symm)
  have hnd₂' : (p₂.map Prod.fst).Nodup := ((hperm.map Prod.fst).nodup_iff).mp hnd
  have hnd₁ : ((sortParams p₁).map Prod.fst).Nodup :=
    ((hperm₁.map Prod.fst).nodup_iff).mpr hnd
  have hnd₂ : ((sortParams p₂).map Prod.fst).Nodup :=
    ((hperm₂.map Prod.fst).nodup_iff).mpr hnd₂'
  have hstrict : ∀ l : List (String × PyVal),
      List.Pairwise (fun a b => strLe a.1 b.1 = true) l →
      (l.map Prod.fst).Nodup →
      List.Pairwise (fun a b : String × PyVal =>
        strLe a.1 b.1 = true ∧ a.1 ≠ b.1) l := by
    intro l hs hn
    exact hs.and (List.pairwise_map.mp hn)
  haveI : IsAntisymm (String × PyVal)
      (fun a b => strLe a.1 b.1 = true ∧ a.1 ≠ b.1) := ⟨by
    rintro a b ⟨hab, hne⟩ ⟨hba, _⟩
    exact absurd (strLe_antisymm _ _ hab hba) hne⟩
  exact List.eq_of_perm_of_sorted hptot (hstrict _ hs₁ hnd₁) (hstrict _ hs₂ hnd₂)

/-- C9: signature generation is a pure function of the parameter
*mapping*: for any two association lists presenting the same mapping
(permutations of each other, with no duplicate keys) and identical
seed, credentials, token and configured mode, the signatures are
identical. -/
theorem signature_deterministic (mode user password : String)
    (p₁ p₂ : List (String × PyVal)) (seed : String) (token : Option String)
    (hperm : p₁.Perm p₂) (hnd : (p₁.map Prod.fst).Nodup) :
    generateSignature mode user password p₁ seed token =
      generateSignature mode user password p₂ seed token := by
  have hclean : (cleanParams p₁).Perm (cleanParams p₂) := hperm.filter _
  have hsub : ((cleanParams p₁).map Prod.fst).Nodup :=
    List.Nodup.sublist ((List.filter_sublist p₁).map Prod.fst) hnd
  have hsort := sortParams_perm_eq _ _ hclean hsub
  unfold generateSignature
  rw [hsort]

/-- Witness for C9: two presentation orders of the same two-entry
mapping sign identically. -/
theorem signature_deterministic_witness :
    ([("b", PyVal.vStr "2"), ("a", PyVal.vStr "1")]).Perm
      [("a", PyVal.vStr "1"), ("b", PyVal.vStr "2")] ∧
    generateSignature "MD5" "u" "p" [("b", .vStr "2"), ("a", .vStr "1")] "s" none =
      generateSignature "MD5" "u" "p" [("a", .vStr "1"), ("b", .vStr "2")] "s" none := by
  have hp : ([("b", PyVal.vStr "2"), ("a", PyVal.vStr "1")]).Perm
      [("a", PyVal.vStr "1"), ("b", PyVal.vStr "2")] :=
    List.Perm.swap ("a", PyVal.vStr "1") ("b", PyVal.vStr "2") []
  exact ⟨hp, signature_deterministic "MD5" "u" "p" _ _ "s" none hp (by decide)⟩
